import Mathlib

/-!
Shallow embedding of the lifecycle-sequencer portion of
`src/components/clarinet-cli/src/runner/vendor/deno_cli/mod.rs`.

The worker (`MainWorker`) is opaque in the source; we model it as an oracle
(`WorkerEnv`) that fixes the outcome of each call the sequencer makes:
side-module loads, the root-module load, the load/before-unload/unload event
dispatches, and each `run_event_loop` pump.  Errors are an abstract type `ε`
(instantiated to `Nat` for concrete runs).  Every operation the code performs
is recorded in an event trace so that ordering and dispatch-count properties
can be stated.
-/

deriving instance DecidableEq for Except

namespace Clarinet.DenoCli

/-- Observable operations performed on the worker, in program order:
`sideModule` = `execute_side_module`, `mainModule` = `execute_main_module`
(or `load_cjs_module`), `loadSignal` = `dispatch_load_event`,
`pump` = `run_event_loop`, `beforeUnload` = `dispatch_beforeunload_event`,
`unloadSignal` = `dispatch_unload_event`. -/
inductive Ev where
  | sideModule
  | mainModule
  | loadSignal
  | pump
  | beforeUnload
  | unloadSignal
deriving DecidableEq, Repr

/-- Oracle fixing the behaviour of one `MainWorker` as driven by
`FileWatcherModuleExecutor::execute` (mod.rs lines 648-674) and by the
eval/stdin one-shot paths, which make exactly these calls in this order.
`rounds` gives, for each drain-loop iteration, the result of the
`run_event_loop` pump and then of `dispatch_beforeunload_event`
(`Except.ok true` = a listener vetoed, loop again; `Except.ok false` = no
veto, exit the loop).  A finite `rounds` list models a loop that, if it
consumed the whole list, would never exit (`stuck` below). -/
structure WorkerEnv (ε : Type) where
  compat : Bool
  sideModule : Except ε Unit
  mainModule : Except ε Unit
  loadEvent : Except ε Unit
  rounds : List (Except ε Unit × Except ε Bool)
  unloadEvent : Except ε Unit

variable {ε : Type}

/-- Events of the compat bootstrap phase of `execute` (mod.rs 649-651):
one `execute_side_module(compat::GLOBAL_URL)` call iff `compat`. -/
def bootTrace (w : WorkerEnv ε) : List Ev :=
  if w.compat then [Ev.sideModule] else []

/-- Result of the compat bootstrap phase: the side-module load result iff
`compat`, otherwise trivially ok (no call is made). -/
def bootResult (w : WorkerEnv ε) : Except ε Unit :=
  if w.compat then w.sideModule else Except.ok ()

/-- How the drain loop of `execute` (mod.rs 656-664) terminates.
`broke r` is `break result` after a non-vetoing before-unload, carrying the
stored pump result `r`; `buFailed e` is the `?` on
`dispatch_beforeunload_event` raising `e`; `stuck` marks an oracle whose
`rounds` list is exhausted, i.e. a loop that never exits. -/
inductive DrainExit (ε : Type) where
  | broke (pumpResult : Except ε Unit)
  | buFailed (e : ε)
  | stuck
deriving DecidableEq, Repr

/-- The drain loop of `FileWatcherModuleExecutor::execute` (mod.rs 656-664):
each iteration stores the pump result, then dispatches before-unload
regardless of that result; a veto loops (discarding the stored result), a
non-veto breaks with the stored result, a before-unload error propagates. -/
def drainLoop : List (Except ε Unit × Except ε Bool) → List Ev × DrainExit ε
  | [] => ([], DrainExit.stuck)
  | (p, b) :: rest =>
    match b with
    | Except.error e => ([Ev.pump, Ev.beforeUnload], DrainExit.buFailed e)
    | Except.ok true =>
        (Ev.pump :: Ev.beforeUnload :: (drainLoop rest).1, (drainLoop rest).2)
    | Except.ok false => ([Ev.pump, Ev.beforeUnload], DrainExit.broke p)

/-- Outcome of one call to `FileWatcherModuleExecutor::execute`: the trace of
worker operations, the returned value (`none` when the drain loop never
exits, so `execute` never returns), and the value of the `pending_unload`
field at the moment `execute` returns (or, for `none`, during the loop). -/
structure ExecOut (ε : Type) where
  trace : List Ev
  result : Option (Except ε Unit)
  pending : Bool
deriving DecidableEq, Repr

/-- `FileWatcherModuleExecutor::execute` (mod.rs 648-674), point for point:
compat side module (`?`), `execute_main_module` (`?`),
`dispatch_load_event` (`?`), `pending_unload = true`, the drain loop,
`pending_unload = false` on normal loop exit, early return of a stored pump
error, then `dispatch_unload_event` (`?`).  Note `pending_unload` stays
`true` only when the before-unload dispatch itself fails (the `?` inside the
loop) or when the loop never exits. -/
def execute (w : WorkerEnv ε) : ExecOut ε :=
  match bootResult w with
  | Except.error e => ⟨bootTrace w, some (Except.error e), false⟩
  | Except.ok _ =>
    match w.mainModule with
    | Except.error e => ⟨bootTrace w ++ [Ev.mainModule], some (Except.error e), false⟩
    | Except.ok _ =>
      match w.loadEvent with
      | Except.error e =>
          ⟨bootTrace w ++ [Ev.mainModule, Ev.loadSignal], some (Except.error e), false⟩
      | Except.ok _ =>
        match (drainLoop w.rounds).2 with
        | DrainExit.stuck =>
            ⟨bootTrace w ++ [Ev.mainModule, Ev.loadSignal] ++ (drainLoop w.rounds).1,
             none, true⟩
        | DrainExit.buFailed e =>
            ⟨bootTrace w ++ [Ev.mainModule, Ev.loadSignal] ++ (drainLoop w.rounds).1,
             some (Except.error e), true⟩
        | DrainExit.broke (Except.error e) =>
            ⟨bootTrace w ++ [Ev.mainModule, Ev.loadSignal] ++ (drainLoop w.rounds).1,
             some (Except.error e), false⟩
        | DrainExit.broke (Except.ok _) =>
          match w.unloadEvent with
          | Except.error e =>
              ⟨bootTrace w ++ [Ev.mainModule, Ev.loadSignal] ++ (drainLoop w.rounds).1
                 ++ [Ev.unloadSignal],
               some (Except.error e), false⟩
          | Except.ok _ =>
              ⟨bootTrace w ++ [Ev.mainModule, Ev.loadSignal] ++ (drainLoop w.rounds).1
                 ++ [Ev.unloadSignal],
               some (Except.ok ()), false⟩

/-- What the `Drop` body does after the worker call: `normal` means it
returned (either no dispatch was made, or the dispatch succeeded);
`panicked e` is `.unwrap()` on `Err(e)`. -/
inductive DropOutcome (ε : Type) where
  | normal
  | panicked (e : ε)
deriving DecidableEq, Repr

/-- `impl Drop for FileWatcherModuleExecutor` (mod.rs 677-685): if
`pending_unload` then `dispatch_unload_event(..).unwrap()` — the dispatch is
attempted exactly when the flag is set, and a dispatch error is unwrapped
(a panic), not logged. -/
def dropExecutor (pending : Bool) (unloadEvent : Except ε Unit) :
    List Ev × DropOutcome ε :=
  if pending then
    match unloadEvent with
    | Except.ok _ => ([Ev.unloadSignal], DropOutcome.normal)
    | Except.error e => ([Ev.unloadSignal], DropOutcome.panicked e)
  else ([], DropOutcome.normal)

/-- Full worker-operation trace of a session in which `execute` runs to a
return (normal or error) and the executor is then dropped at the end of the
`operation` closure (mod.rs 697-715). -/
def completedTrace (w : WorkerEnv ε) : List Ev :=
  (execute w).trace ++ (dropExecutor (execute w).pending w.unloadEvent).1

/-- The trace fragment produced by `n` complete drain-loop rounds:
pump, before-unload, pump, before-unload, … -/
def pumpBuBlocks : Nat → List Ev
  | 0 => []
  | n + 1 => Ev.pump :: Ev.beforeUnload :: pumpBuBlocks n

def isOkU : Except ε Unit → Bool
  | Except.ok _ => true
  | Except.error _ => false

/-- Whether drain-loop round `i` exists in the oracle and its before-unload
dispatch reports a veto (`Ok(true)`), i.e. the loop keeps going. -/
def vetoRound : Option (Except ε Unit × Except ε Bool) → Bool
  | some (_, Except.ok true) => true
  | _ => false

/-- Whether the `k`-th `run_event_loop` call (0-indexed) is reached by
`execute` on oracle `w`: the bootstrap, root-module load and load dispatch
must all have succeeded, and every earlier round's before-unload must have
vetoed (any earlier pump result is irrelevant — a pump error does not exit
the loop). -/
def pumpReachable (w : WorkerEnv ε) (k : Nat) : Bool :=
  isOkU (bootResult w) && isOkU w.mainModule && isOkU w.loadEvent &&
    (List.range k).all (fun i => vetoRound (w.rounds.get? i))

/-- A session cancelled at the `k`-th `run_event_loop` await — the only
suspension points of `execute` after the load dispatch — and then dropped.
At every such point `pending_unload` is `true` (set at mod.rs 654, reset
only after the loop exits), so `Drop` runs with `pending = true`.  Returns
the full trace (partial execution plus `Drop`) and the `Drop` outcome;
`none` when that cancellation point is not reachable on this oracle. -/
def cancelledAtPumpSession (w : WorkerEnv ε) (k : Nat) :
    Option (List Ev × DropOutcome ε) :=
  if pumpReachable w k then
    some ((bootTrace w ++ [Ev.mainModule, Ev.loadSignal] ++ pumpBuBlocks k
             ++ [Ev.pump]) ++ (dropExecutor true w.unloadEvent).1,
          (dropExecutor true w.unloadEvent).2)
  else none

/-- The ways one watch-mode session can end: `execute` returning and the
executor being dropped, or cancellation at one of `execute`'s awaits
(the compat side-module load, the root-module load, or a pump) followed by
the drop.  Before the load dispatch `pending_unload` is still `false`. -/
inductive Scenario (ε : Type) where
  | completed (w : WorkerEnv ε)
  | cancelledAtSideModule (w : WorkerEnv ε)
  | cancelledAtMainModule (w : WorkerEnv ε)
  | cancelledAtPump (w : WorkerEnv ε) (k : Nat)

/-- Full worker-operation trace of a scenario (`none` if the scenario is not
reachable on its oracle). -/
def scenarioTrace : Scenario ε → Option (List Ev)
  | Scenario.completed w => some (completedTrace w)
  | Scenario.cancelledAtSideModule w =>
      if w.compat then
        some (bootTrace w ++ (dropExecutor false w.unloadEvent).1)
      else none
  | Scenario.cancelledAtMainModule w =>
      if isOkU (bootResult w) then
        some (bootTrace w ++ [Ev.mainModule] ++ (dropExecutor false w.unloadEvent).1)
      else none
  | Scenario.cancelledAtPump w k => (cancelledAtPumpSession w k).map Prod.fst

/-- How the one-shot drain loop (mod.rs 806-813, and the identical loops at
363-369 and 615-620) terminates.  Unlike the watcher's loop, the pump result
is not stored: `run_event_loop(..).await?` propagates a pump error at once,
before any before-unload dispatch (`pumpFailed`). -/
inductive OneShotLoopExit (ε : Type) where
  | done
  | pumpFailed (e : ε)
  | buFailed (e : ε)
  | stuck
deriving DecidableEq, Repr

/-- The drain loop of `run_command` / `run_from_stdin` / `eval_command`:
`loop { worker.run_event_loop(..).await?;
if !worker.dispatch_beforeunload_event(..)? { break; } }`. -/
def oneShotDrain : List (Except ε Unit × Except ε Bool) → List Ev × OneShotLoopExit ε
  | [] => ([], OneShotLoopExit.stuck)
  | (p, b) :: rest =>
    match p with
    | Except.error e => ([Ev.pump], OneShotLoopExit.pumpFailed e)
    | Except.ok _ =>
      match b with
      | Except.error e => ([Ev.pump, Ev.beforeUnload], OneShotLoopExit.buFailed e)
      | Except.ok true =>
          (Ev.pump :: Ev.beforeUnload :: (oneShotDrain rest).1, (oneShotDrain rest).2)
      | Except.ok false => ([Ev.pump, Ev.beforeUnload], OneShotLoopExit.done)

/-- `run_from_stdin` (mod.rs 583-623) from the first worker call on: compat
side module (`compat::GLOBAL_URL` only), `execute_main_module`,
`dispatch_load_event`, the one-shot drain loop, `dispatch_unload_event`,
then `Ok(worker.get_exit_code())`; `exitCode` is the worker's reported exit
status.  Stdin reading and file-fetcher cache insertion, which precede any
worker call, are outside the model. -/
def run_from_stdin (w : WorkerEnv ε) (exitCode : Int) :
    List Ev × Option (Except ε Int) :=
  match bootResult w with
  | Except.error e => (bootTrace w, some (Except.error e))
  | Except.ok _ =>
    match w.mainModule with
    | Except.error e => (bootTrace w ++ [Ev.mainModule], some (Except.error e))
    | Except.ok _ =>
      match w.loadEvent with
      | Except.error e =>
          (bootTrace w ++ [Ev.mainModule, Ev.loadSignal], some (Except.error e))
      | Except.ok _ =>
        match (oneShotDrain w.rounds).2 with
        | OneShotLoopExit.stuck =>
            (bootTrace w ++ [Ev.mainModule, Ev.loadSignal] ++ (oneShotDrain w.rounds).1,
             none)
        | OneShotLoopExit.pumpFailed e =>
            (bootTrace w ++ [Ev.mainModule, Ev.loadSignal] ++ (oneShotDrain w.rounds).1,
             some (Except.error e))
        | OneShotLoopExit.buFailed e =>
            (bootTrace w ++ [Ev.mainModule, Ev.loadSignal] ++ (oneShotDrain w.rounds).1,
             some (Except.error e))
        | OneShotLoopExit.done =>
          match w.unloadEvent with
          | Except.error e =>
              (bootTrace w ++ [Ev.mainModule, Ev.loadSignal] ++ (oneShotDrain w.rounds).1
                 ++ [Ev.unloadSignal],
               some (Except.error e))
          | Except.ok _ =>
              (bootTrace w ++ [Ev.mainModule, Ev.loadSignal] ++ (oneShotDrain w.rounds).1
                 ++ [Ev.unloadSignal],
               some (Except.ok exitCode))

/-- `eval_command` (mod.rs 324-372) from the first worker call on: the same
call sequence as `run_from_stdin` (compat loads `GLOBAL_URL` only), but the
function ends with `Ok(0)` (line 371) — `exitCode`, the worker's reported
exit status, is never consulted. -/
def eval_command (w : WorkerEnv ε) (exitCode : Int) :
    List Ev × Option (Except ε Int) :=
  match (run_from_stdin w exitCode).2 with
  | some (Except.ok _) => ((run_from_stdin w exitCode).1, some (Except.ok 0))
  | r => ((run_from_stdin w exitCode).1, r)

/-- Oracle for `run_command` (mod.rs 732-823).  In compat mode the code
loads two side modules (`compat::GLOBAL_URL`, `compat::MODULE_URL`), asks
`compat::check_if_should_use_esm_loader` and then runs the root either as an
ES module (`esmMain`) or via `compat::load_cjs_module` (`cjsMain`); outside
compat mode it runs `esmMain` directly.  The coverage collector is absent
(the `ps.coverage_dir = None` configuration), so `run_event_loop(true)` is
the pump — pump results live in `rounds` as elsewhere. -/
structure OneShotEnv (ε : Type) where
  sideModuleGlobal : Except ε Unit
  sideModuleModule : Except ε Unit
  useEsmLoader : Except ε Bool
  esmMain : Except ε Unit
  cjsMain : Except ε Unit
  loadEvent : Except ε Unit
  rounds : List (Except ε Unit × Except ε Bool)
  unloadEvent : Except ε Unit
  exitCode : Int

/-- Module-load phase of `run_command` in compat mode (mod.rs 773-798):
both side modules, the ESM-loader check, then the ES or CJS root load.
Returns the events performed and the first error, if any. -/
def runCompatLoadPhase (o : OneShotEnv ε) : List Ev × Option ε :=
  match o.sideModuleGlobal with
  | Except.error e => ([Ev.sideModule], some e)
  | Except.ok _ =>
    match o.sideModuleModule with
    | Except.error e => ([Ev.sideModule, Ev.sideModule], some e)
    | Except.ok _ =>
      match o.useEsmLoader with
      | Except.error e => ([Ev.sideModule, Ev.sideModule], some e)
      | Except.ok true =>
        match o.esmMain with
        | Except.error e => ([Ev.sideModule, Ev.sideModule, Ev.mainModule], some e)
        | Except.ok _ => ([Ev.sideModule, Ev.sideModule, Ev.mainModule], none)
      | Except.ok false =>
        match o.cjsMain with
        | Except.error e => ([Ev.sideModule, Ev.sideModule, Ev.mainModule], some e)
        | Except.ok _ => ([Ev.sideModule, Ev.sideModule, Ev.mainModule], none)

/-- Module-load phase of `run_command` (mod.rs 773-802): compat branch or
plain `execute_main_module`. -/
def runLoadPhase (compat : Bool) (o : OneShotEnv ε) : List Ev × Option ε :=
  if compat then runCompatLoadPhase o
  else
    match o.esmMain with
    | Except.error e => ([Ev.mainModule], some e)
    | Except.ok _ => ([Ev.mainModule], none)

/-- `run_command` (mod.rs 732-823) from the first worker call on, in the
non-watch, non-stdin configuration with no coverage collector: the module
load phase, `dispatch_load_event`, the one-shot drain loop (a pump error
propagates at once via `?`), `dispatch_unload_event`, then
`Ok(worker.get_exit_code())`. -/
def run_command (compat : Bool) (o : OneShotEnv ε) :
    List Ev × Option (Except ε Int) :=
  match (runLoadPhase compat o).2 with
  | some e => ((runLoadPhase compat o).1, some (Except.error e))
  | none =>
    match o.loadEvent with
    | Except.error e =>
        ((runLoadPhase compat o).1 ++ [Ev.loadSignal], some (Except.error e))
    | Except.ok _ =>
      match (oneShotDrain o.rounds).2 with
      | OneShotLoopExit.stuck =>
          ((runLoadPhase compat o).1 ++ [Ev.loadSignal] ++ (oneShotDrain o.rounds).1,
           none)
      | OneShotLoopExit.pumpFailed e =>
          ((runLoadPhase compat o).1 ++ [Ev.loadSignal] ++ (oneShotDrain o.rounds).1,
           some (Except.error e))
      | OneShotLoopExit.buFailed e =>
          ((runLoadPhase compat o).1 ++ [Ev.loadSignal] ++ (oneShotDrain o.rounds).1,
           some (Except.error e))
      | OneShotLoopExit.done =>
        match o.unloadEvent with
        | Except.error e =>
            ((runLoadPhase compat o).1 ++ [Ev.loadSignal] ++ (oneShotDrain o.rounds).1
               ++ [Ev.unloadSignal],
             some (Except.error e))
        | Except.ok _ =>
            ((runLoadPhase compat o).1 ++ [Ev.loadSignal] ++ (oneShotDrain o.rounds).1
               ++ [Ev.unloadSignal],
             some (Except.ok o.exitCode))

/-- Oracle for the resolver closure of `bundle_command` (mod.rs 480-518).
`graphOutcome` collapses the fallible steps of the `async` block
(`resolve_url_or_path`, `ProcState::from_options`,
`create_graph_and_maybe_check`) into one result; on success it lists, for
each entry of `graph.specifiers()`, the specifier's local file path when the
entry resolved to a local file (`to_file_path().ok()`), and `none` for a
remote or unresolved entry.  `importMapPath` is the configured import map's
file path, if any. -/
structure ResolveEnv (π ε : Type) where
  sourceFile : π
  graphOutcome : Except ε (List (Option π))
  importMapPath : Option π

/-- The message the resolver hands to the watch driver: one
`ResolutionResult::Restart` with its `paths_to_watch` and its
success-or-diagnostic payload (the payload's `(ps, graph)` value is opaque
here). -/
structure RestartMsg (π ε : Type) where
  paths_to_watch : List π
  outcome : Except ε Unit

/-- The resolver closure of `bundle_command` (mod.rs 480-518): on success
`paths_to_watch` is the `filter_map` of the graph's specifiers to local file
paths, with the import map path pushed on the end when one is configured; on
any failure it is `vec![PathBuf::from(source_file)]`. -/
def bundle_resolver {π : Type} (r : ResolveEnv π ε) : RestartMsg π ε :=
  match r.graphOutcome with
  | Except.ok specPaths =>
      { paths_to_watch := specPaths.filterMap id ++ r.importMapPath.toList,
        outcome := Except.ok () }
  | Except.error e =>
      { paths_to_watch := [r.sourceFile], outcome := Except.error e }

/-- Kind of a `std::io::Error`; every kind other than `BrokenPipe` is
collapsed into `other` with an arbitrary discriminant. -/
inductive IoErrorKind where
  | brokenPipe
  | other (code : Nat)
deriving DecidableEq, Repr

/-- A `std::io::Error` value: its kind plus a payload making distinct errors
distinguishable, so "returned unchanged" is expressible. -/
structure IoError where
  kind : IoErrorKind
  msg : String
deriving DecidableEq, Repr

/-- `write_to_stdout_ignore_sigpipe` (mod.rs 247-257), with the outcome of
the underlying `stdout().write_all(bytes)` supplied as input: `Ok(())` on
success, `Ok(())` when the error kind is `BrokenPipe`, otherwise the error
itself. -/
def write_to_stdout_ignore_sigpipe (writeAll : Except IoError Unit) :
    Except IoError Unit :=
  match writeAll with
  | Except.ok _ => Except.ok ()
  | Except.error e =>
    match e.kind with
    | IoErrorKind.brokenPipe => Except.ok ()
    | IoErrorKind.other _ => Except.error e

/-- Recognizer for the tail `(before-unload, pump)+ unload` of the sequence
asserted by spec property P1. -/
def buPumpPlusUnload : List Ev → Bool
  | [Ev.beforeUnload, Ev.pump, Ev.unloadSignal] => true
  | Ev.beforeUnload :: Ev.pump :: rest => buPumpPlusUnload rest
  | _ => false

/-- Modelled from the spec, P1 (the claim under test, not the code): the
observed sequence of a successful attempt is exactly
`[bootstrap?, load, (before-unload, pump)+, unload]` — an optional
bootstrap side-module load, the root-module load and load signal, one or
more before-unload/pump pairs in that order, then the unload signal. -/
def matchesClaimShape : List Ev → Bool
  | Ev.sideModule :: Ev.mainModule :: Ev.loadSignal :: rest => buPumpPlusUnload rest
  | Ev.mainModule :: Ev.loadSignal :: rest => buPumpPlusUnload rest
  | _ => false

/-- The trace fragment `(before-unload, pump)` repeated `n` times, the round
shape asserted by P1. -/
def buPumpBlocks : Nat → List Ev
  | 0 => []
  | n + 1 => Ev.beforeUnload :: Ev.pump :: buPumpBlocks n

/-- Modelled from the spec, P1, as an explicit trace (used to check the
recognizer is not vacuous). -/
def claimShape (compat : Bool) (n : Nat) : List Ev :=
  (if compat then [Ev.sideModule] else []) ++ [Ev.mainModule, Ev.loadSignal]
    ++ buPumpBlocks n ++ [Ev.unloadSignal]

/-- Oracle for a session whose single pump errors and whose before-unload
then reports no veto: the stored pump error is returned after
`pending_unload` was already reset. -/
def cexPumpErr : WorkerEnv Nat :=
  { compat := false, sideModule := Except.ok (), mainModule := Except.ok (),
    loadEvent := Except.ok (), rounds := [(Except.error 7, Except.ok false)],
    unloadEvent := Except.ok () }

/-- Oracle for a session cancelled at its first pump, whose unload dispatch
succeeds. -/
def envCancel : WorkerEnv Nat :=
  { compat := false, sideModule := Except.ok (), mainModule := Except.ok (),
    loadEvent := Except.ok (), rounds := [], unloadEvent := Except.ok () }

/-- Oracle for a session cancelled at its first pump, whose terminal unload
dispatch fails with error 3. -/
def cexDropPanic : WorkerEnv Nat :=
  { compat := false, sideModule := Except.ok (), mainModule := Except.ok (),
    loadEvent := Except.ok (), rounds := [], unloadEvent := Except.error 3 }

/-- Oracle for a fully successful session: one pump, no veto, all
dispatches succeed. -/
def envSuccess : WorkerEnv Nat :=
  { compat := false, sideModule := Except.ok (), mainModule := Except.ok (),
    loadEvent := Except.ok (), rounds := [(Except.ok (), Except.ok false)],
    unloadEvent := Except.ok () }

/-- Oracle whose compat bootstrap side-module load fails with error 9. -/
def envBootFail : WorkerEnv Nat :=
  { compat := true, sideModule := Except.error 9, mainModule := Except.ok (),
    loadEvent := Except.ok (), rounds := [], unloadEvent := Except.ok () }

/-- Oracle for a session whose pump succeeds but whose before-unload
dispatch itself fails with error 11: the `?` inside the drain loop returns
while `pending_unload` is still true. -/
def cexBuFail : WorkerEnv Nat :=
  { compat := false, sideModule := Except.ok (), mainModule := Except.ok (),
    loadEvent := Except.ok (), rounds := [(Except.ok (), Except.error 11)],
    unloadEvent := Except.ok () }

/-- One-shot oracle whose single pump errors and whose before-unload would
report no veto — in the one-shot loops the pump error propagates first. -/
def envStdinPumpErr : WorkerEnv Nat :=
  { compat := false, sideModule := Except.ok (), mainModule := Except.ok (),
    loadEvent := Except.ok (), rounds := [(Except.error 5, Except.ok false)],
    unloadEvent := Except.ok () }

/-- Fully successful `run_command` oracle with reported exit code 3. -/
def oRunSuccess : OneShotEnv Nat :=
  { sideModuleGlobal := Except.ok (), sideModuleModule := Except.ok (),
    useEsmLoader := Except.ok true, esmMain := Except.ok (),
    cjsMain := Except.ok (), loadEvent := Except.ok (),
    rounds := [(Except.ok (), Except.ok false)], unloadEvent := Except.ok (),
    exitCode := 3 }

/-- A successful resolution whose only graph specifier is not a local file
(for example a remote root) and with no import map configured. -/
def rRemoteOnly : ResolveEnv String Nat :=
  { sourceFile := "https-root", graphOutcome := Except.ok [none],
    importMapPath := none }

/-- A failed resolution rooted at `b.ts`. -/
def rFail : ResolveEnv String Nat :=
  { sourceFile := "b.ts", graphOutcome := Except.error 3, importMapPath := none }

/-- A successful resolution with one local specifier, one remote specifier
and an import map. -/
def rLocal : ResolveEnv String Nat :=
  { sourceFile := "a.ts", graphOutcome := Except.ok [some "a.ts", none],
    importMapPath := some "im.json" }

/-- A `BrokenPipe` I/O error. -/
def ioPipe : IoError := { kind := IoErrorKind.brokenPipe, msg := "pipe closed" }

/-- An I/O error of some kind other than `BrokenPipe`. -/
def ioOther : IoError := { kind := IoErrorKind.other 2, msg := "disk full" }

theorem count_unload_bootTrace (w : WorkerEnv ε) :
    (bootTrace w).count Ev.unloadSignal = 0 := by
  unfold bootTrace
  split <;> decide

theorem count_unload_drainLoop (rs : List (Except ε Unit × Except ε Bool)) :
    (drainLoop rs).1.count Ev.unloadSignal = 0 := by
  induction rs with
  | nil => simp [drainLoop]
  | cons hd tl ih =>
      obtain ⟨p, b⟩ := hd
      match b with
      | Except.error e => simp [drainLoop]
      | Except.ok true => simp [drainLoop, List.count_cons, ih]
      | Except.ok false => simp [drainLoop]

theorem count_unload_drop (p : Bool) (u : Except ε Unit) :
    (dropExecutor p u).1.count Ev.unloadSignal = if p then 1 else 0 := by
  cases p <;> cases u <;> simp [dropExecutor]

theorem count_unload_pumpBuBlocks (n : Nat) :
    (pumpBuBlocks n).count Ev.unloadSignal = 0 := by
  induction n with
  | zero => simp [pumpBuBlocks]
  | succ n ih => simp [pumpBuBlocks, List.count_cons, ih]

theorem execute_bootErr (w : WorkerEnv ε) (e : ε) (hb : bootResult w = Except.error e) :
    execute w = ⟨bootTrace w, some (Except.error e), false⟩ := by
  unfold execute; rw [hb]

theorem execute_mainErr (w : WorkerEnv ε) (e : ε) (hb : bootResult w = Except.ok ())
    (hm : w.mainModule = Except.error e) :
    execute w = ⟨bootTrace w ++ [Ev.mainModule], some (Except.error e), false⟩ := by
  unfold execute; rw [hb, hm]

theorem execute_loadErr (w : WorkerEnv ε) (e : ε) (hb : bootResult w = Except.ok ())
    (hm : w.mainModule = Except.ok ()) (hl : w.loadEvent = Except.error e) :
    execute w = ⟨bootTrace w ++ [Ev.mainModule, Ev.loadSignal],
                 some (Except.error e), false⟩ := by
  unfold execute; rw [hb, hm, hl]

theorem execute_stuck (w : WorkerEnv ε) (hb : bootResult w = Except.ok ())
    (hm : w.mainModule = Except.ok ()) (hl : w.loadEvent = Except.ok ())
    (hd : (drainLoop w.rounds).2 = DrainExit.stuck) :
    execute w = ⟨bootTrace w ++ [Ev.mainModule, Ev.loadSignal] ++ (drainLoop w.rounds).1,
                 none, true⟩ := by
  unfold execute; rw [hb, hm, hl, hd]

theorem execute_buFailed (w : WorkerEnv ε) (e : ε) (hb : bootResult w = Except.ok ())
    (hm : w.mainModule = Except.ok ()) (hl : w.loadEvent = Except.ok ())
    (hd : (drainLoop w.rounds).2 = DrainExit.buFailed e) :
    execute w = ⟨bootTrace w ++ [Ev.mainModule, Ev.loadSignal] ++ (drainLoop w.rounds).1,
                 some (Except.error e), true⟩ := by
  unfold execute; rw [hb, hm, hl, hd]

theorem execute_brokeErr (w : WorkerEnv ε) (e : ε) (hb : bootResult w = Except.ok ())
    (hm : w.mainModule = Except.ok ()) (hl : w.loadEvent = Except.ok ())
    (hd : (drainLoop w.rounds).2 = DrainExit.broke (Except.error e)) :
    execute w = ⟨bootTrace w ++ [Ev.mainModule, Ev.loadSignal] ++ (drainLoop w.rounds).1,
                 some (Except.error e), false⟩ := by
  unfold execute; rw [hb, hm, hl, hd]

theorem execute_unloadErr (w : WorkerEnv ε) (e : ε) (hb : bootResult w = Except.ok ())
    (hm : w.mainModule = Except.ok ()) (hl : w.loadEvent = Except.ok ())
    (hd : (drainLoop w.rounds).2 = DrainExit.broke (Except.ok ()))
    (hu : w.unloadEvent = Except.error e) :
    execute w = ⟨bootTrace w ++ [Ev.mainModule, Ev.loadSignal] ++ (drainLoop w.rounds).1
                   ++ [Ev.unloadSignal],
                 some (Except.error e), false⟩ := by
  unfold execute; rw [hb, hm, hl, hd, hu]

theorem execute_success (w : WorkerEnv ε) (hb : bootResult w = Except.ok ())
    (hm : w.mainModule = Except.ok ()) (hl : w.loadEvent = Except.ok ())
    (hd : (drainLoop w.rounds).2 = DrainExit.broke (Except.ok ()))
    (hu : w.unloadEvent = Except.ok ()) :
    execute w = ⟨bootTrace w ++ [Ev.mainModule, Ev.loadSignal] ++ (drainLoop w.rounds).1
                   ++ [Ev.unloadSignal],
                 some (Except.ok ()), false⟩ := by
  unfold execute; rw [hb, hm, hl, hd, hu]

theorem drainLoop_not_stuck_blocks (rs : List (Except ε Unit × Except ε Bool))
    (h : (drainLoop rs).2 ≠ DrainExit.stuck) :
    ∃ n, 1 ≤ n ∧ (drainLoop rs).1 = pumpBuBlocks n := by
  induction rs with
  | nil => simp [drainLoop] at h
  | cons hd tl ih =>
      obtain ⟨p, b⟩ := hd
      cases b with
      | error e => exact ⟨1, Nat.le_refl 1, by simp [drainLoop, pumpBuBlocks]⟩
      | ok bb =>
          cases bb with
          | false => exact ⟨1, Nat.le_refl 1, by simp [drainLoop, pumpBuBlocks]⟩
          | true =>
              have h2 : (drainLoop tl).2 ≠ DrainExit.stuck := by
                simpa [drainLoop] using h
              obtain ⟨n, hn, ht⟩ := ih h2
              exact ⟨n + 1, Nat.le_succ_of_le hn, by simp [drainLoop, pumpBuBlocks, ht]⟩

theorem count_bootTrace (w : WorkerEnv ε) (x : Ev) (hx : x ≠ Ev.sideModule) :
    (bootTrace w).count x = 0 := by
  unfold bootTrace
  split <;> simp [List.count_cons, hx]

theorem cancelled_count_unload (w : WorkerEnv ε) (k : Nat) (t : List Ev)
    (d : DropOutcome ε) (h : cancelledAtPumpSession w k = some (t, d)) :
    t.count Ev.unloadSignal = 1 := by
  unfold cancelledAtPumpSession at h
  split at h
  · simp only [Option.some.injEq, Prod.mk.injEq] at h
    obtain ⟨ht, _⟩ := h
    subst ht
    simp [List.count_append, count_unload_bootTrace, count_unload_pumpBuBlocks,
      count_unload_drop, List.count_cons]
  · exact absurd h (by simp)

theorem completed_count_unload (w : WorkerEnv ε) :
    (completedTrace w).count Ev.unloadSignal ≤ 1 := by
  unfold completedTrace
  rcases hb : bootResult w with e | u
  · rw [execute_bootErr w e hb]
    simp [List.count_append, count_unload_bootTrace, count_unload_drop]
  · cases u
    rcases hm : w.mainModule with e | u
    · rw [execute_mainErr w e hb hm]
      simp [List.count_append, count_unload_bootTrace, count_unload_drop,
        List.count_cons]
    · cases u
      rcases hl : w.loadEvent with e | u
      · rw [execute_loadErr w e hb hm hl]
        simp [List.count_append, count_unload_bootTrace, count_unload_drop,
          List.count_cons]
      · cases u
        rcases hd : (drainLoop w.rounds).2 with r | e | _
        · rcases r with e | u
          · rw [execute_brokeErr w e hb hm hl hd]
            simp [List.count_append, count_unload_bootTrace, count_unload_drainLoop,
              count_unload_drop, List.count_cons]
          · cases u
            rcases hu : w.unloadEvent with e | u
            · rw [execute_unloadErr w e hb hm hl hd hu]
              simp [List.count_append, count_unload_bootTrace, count_unload_drainLoop,
                count_unload_drop, List.count_cons]
            · cases u
              rw [execute_success w hb hm hl hd hu]
              simp [List.count_append, count_unload_bootTrace, count_unload_drainLoop,
                count_unload_drop, List.count_cons]
        · rw [execute_buFailed w e hb hm hl hd]
          simp [List.count_append, count_unload_bootTrace, count_unload_drainLoop,
            count_unload_drop, List.count_cons]
        · rw [execute_stuck w hb hm hl hd]
          simp [List.count_append, count_unload_bootTrace, count_unload_drainLoop,
            count_unload_drop, List.count_cons]

/-- C1 (counterexample): a session whose single pump errors and whose
before-unload reports no veto has its load signal dispatched successfully,
is destroyed without the unload signal ever having been dispatched, and yet
zero unload dispatches occur across `execute` and `Drop` — contradicting
the claim that exactly one unload dispatch is performed for every session
destroyed after a successful load dispatch and before an unload dispatch. -/
theorem load_succeeded_session_zero_unload_dispatches :
    cexPumpErr.loadEvent = Except.ok () ∧
      (completedTrace cexPumpErr).count Ev.loadSignal = 1 ∧
      (completedTrace cexPumpErr).count Ev.unloadSignal = 0 :=
  ⟨rfl, rfl, rfl⟩

/-- C1 (amended): for every session destroyed while `pending_unload` is
true — in particular every session cancelled at a `run_event_loop` await,
the only suspension points after the load dispatch — exactly one unload
dispatch is performed before the worker is released; and the `Drop` handler
dispatches unload if and only if `pending_unload` is true at destruction
time. -/
theorem cancelled_session_exactly_one_unload (w : WorkerEnv ε) (k : Nat)
    (t : List Ev) (d : DropOutcome ε)
    (h : cancelledAtPumpSession w k = some (t, d)) :
    t.count Ev.unloadSignal = 1 ∧
      ∀ (p : Bool) (u : Except ε Unit),
        (dropExecutor p u).1.count Ev.unloadSignal = 1 ↔ p = true := by
  refine ⟨cancelled_count_unload w k t d h, ?_⟩
  intro p u
  rw [count_unload_drop]
  cases p <;> simp

theorem cancelled_session_exactly_one_unload_witness :
    ([Ev.mainModule, Ev.loadSignal, Ev.pump, Ev.unloadSignal] : List Ev).count
        Ev.unloadSignal = 1 ∧
      ∀ (p : Bool) (u : Except Nat Unit),
        (dropExecutor p u).1.count Ev.unloadSignal = 1 ↔ p = true :=
  cancelled_session_exactly_one_unload envCancel 0 _ DropOutcome.normal rfl

/-- C2 (counterexample): a session cancelled at its first pump whose
terminal unload dispatch fails does not log and continue — the `Drop`
handler unwraps the failure, i.e. panics with it. -/
theorem drop_unload_failure_panics_cex :
    cancelledAtPumpSession cexDropPanic 0 =
      some ([Ev.mainModule, Ev.loadSignal, Ev.pump, Ev.unloadSignal],
            DropOutcome.panicked 3) := rfl

/-- C2 (amended): for every session destroyed while `pending_unload` is
true, the finalizer dispatches the unload signal; if that dispatch fails the
failure is propagated as a panic (`.unwrap()`), not logged and suppressed. -/
theorem drop_unload_failure_panics (e : ε) :
    dropExecutor true (Except.error e)
        = ([Ev.unloadSignal], DropOutcome.panicked e) ∧
      dropExecutor true (Except.ok ())
        = ([Ev.unloadSignal], (DropOutcome.normal : DropOutcome ε)) :=
  ⟨rfl, rfl⟩

/-- C3 (counterexample): on an oracle whose pump errors and whose
before-unload then reports no veto, `execute` returns the pump error but
`pending_unload` is already false at that return — contradicting the claim
that it is still true. -/
theorem pump_error_return_pending_false_cex :
    (execute cexPumpErr).result = some (Except.error 7) ∧
      (execute cexPumpErr).pending ≠ true :=
  ⟨rfl, by decide⟩

/-- C3 (amended): after the load signal succeeded, when the drain loop
exits through a non-vetoing before-unload carrying a stored pump error, the
pump error propagates to the caller of `execute` with `pending_unload`
already reset to false, and no unload signal is dispatched at all, by
`execute` or by the finalizer; when instead the before-unload dispatch
itself fails, that error propagates with `pending_unload` still true, and
the finalizer then performs exactly one terminal unload dispatch. -/
theorem pump_error_return_pending_false (w : WorkerEnv ε) (e : ε)
    (hb : bootResult w = Except.ok ()) (hm : w.mainModule = Except.ok ())
    (hl : w.loadEvent = Except.ok ()) :
    ((drainLoop w.rounds).2 = DrainExit.broke (Except.error e) →
        (execute w).result = some (Except.error e) ∧ (execute w).pending = false ∧
          (completedTrace w).count Ev.unloadSignal = 0) ∧
      ((drainLoop w.rounds).2 = DrainExit.buFailed e →
        (execute w).result = some (Except.error e) ∧ (execute w).pending = true ∧
          (completedTrace w).count Ev.unloadSignal = 1) := by
  constructor
  · intro hd
    have he := execute_brokeErr w e hb hm hl hd
    refine ⟨by rw [he], by rw [he], ?_⟩
    unfold completedTrace
    rw [he]
    simp [List.count_append, count_unload_bootTrace, count_unload_drainLoop,
      count_unload_drop, List.count_cons]
  · intro hd
    have he := execute_buFailed w e hb hm hl hd
    refine ⟨by rw [he], by rw [he], ?_⟩
    unfold completedTrace
    rw [he]
    simp [List.count_append, count_unload_bootTrace, count_unload_drainLoop,
      count_unload_drop, List.count_cons]

theorem pump_error_return_pending_false_witness :
    ((execute cexPumpErr).result = some (Except.error 7) ∧
        (execute cexPumpErr).pending = false ∧
        (completedTrace cexPumpErr).count Ev.unloadSignal = 0) ∧
      (execute cexBuFail).result = some (Except.error 11) ∧
        (execute cexBuFail).pending = true ∧
        (completedTrace cexBuFail).count Ev.unloadSignal = 1 :=
  ⟨(pump_error_return_pending_false cexPumpErr 7 rfl rfl rfl).1 rfl,
   (pump_error_return_pending_false cexBuFail 11 rfl rfl rfl).2 rfl⟩

/-- C4 (confirmed): across every session path — normal completion of
`execute`, an error return, and cancellation at any await with the
destruction-time dispatch — the unload signal is dispatched at most once,
regardless of how many veto rounds the drain loop performed. -/
theorem unload_dispatched_at_most_once (s : Scenario ε) (t : List Ev)
    (h : scenarioTrace s = some t) :
    t.count Ev.unloadSignal ≤ 1 := by
  cases s with
  | completed w =>
      simp only [scenarioTrace, Option.some.injEq] at h
      subst h
      exact completed_count_unload w
  | cancelledAtSideModule w =>
      simp only [scenarioTrace] at h
      split at h
      · simp only [Option.some.injEq] at h
        subst h
        simp [List.count_append, count_unload_bootTrace, count_unload_drop]
      · exact absurd h (by simp)
  | cancelledAtMainModule w =>
      simp only [scenarioTrace] at h
      split at h
      · simp only [Option.some.injEq] at h
        subst h
        simp [List.count_append, count_unload_bootTrace, count_unload_drop,
          List.count_cons]
      · exact absurd h (by simp)
  | cancelledAtPump w k =>
      simp only [scenarioTrace] at h
      rcases hs : cancelledAtPumpSession w k with _ | ⟨t2, d⟩
      · rw [hs] at h
        exact absurd h (by simp)
      · rw [hs] at h
        simp at h
        subst h
        exact Nat.le_of_eq (cancelled_count_unload w k t2 d hs)

theorem unload_dispatched_at_most_once_witness :
    (completedTrace envSuccess).count Ev.unloadSignal ≤ 1 :=
  unload_dispatched_at_most_once (Scenario.completed envSuccess)
    (completedTrace envSuccess) rfl

/-- C5 (counterexample): a fully successful attempt produces a trace that
the recognizer accepts for the code's order but not for the claimed
sequence `[bootstrap?, load, (before-unload, pump)+, unload]` — the code
pumps before each before-unload dispatch, so the claimed round order is
wrong even though the recognizer does accept the claimed shape itself. -/
theorem successful_trace_not_claim_shape :
    (execute envSuccess).result = some (Except.ok ()) ∧
      matchesClaimShape (execute envSuccess).trace = false ∧
      matchesClaimShape (claimShape false 1) = true ∧
      matchesClaimShape (claimShape true 2) = true :=
  ⟨rfl, rfl, rfl, rfl⟩

/-- C5 (amended): for every attempt that completes successfully the observed
signal/operation sequence is exactly
`[bootstrap?, load-module, load, (pump, before-unload)+, unload]`: bootstrap
(present only in compat mode) strictly precedes the root-module load, the
load signal strictly precedes every before-unload, pump and before-unload
strictly alternate with the pump first in each round, the unload signal
immediately follows the last (non-vetoing) before-unload, and before-unload
never follows unload. -/
theorem successful_trace_shape (w : WorkerEnv ε)
    (h : (execute w).result = some (Except.ok ())) :
    ∃ n, 1 ≤ n ∧ (execute w).trace
      = bootTrace w ++ [Ev.mainModule, Ev.loadSignal] ++ pumpBuBlocks n
          ++ [Ev.unloadSignal] := by
  rcases hb : bootResult w with e | u
  · rw [execute_bootErr w e hb] at h
    exact absurd h (by simp)
  · cases u
    rcases hm : w.mainModule with e | u
    · rw [execute_mainErr w e hb hm] at h
      exact absurd h (by simp)
    · cases u
      rcases hl : w.loadEvent with e | u
      · rw [execute_loadErr w e hb hm hl] at h
        exact absurd h (by simp)
      · cases u
        rcases hd : (drainLoop w.rounds).2 with r | e | _
        · rcases r with e | u
          · rw [execute_brokeErr w e hb hm hl hd] at h
            exact absurd h (by simp)
          · cases u
            rcases hu : w.unloadEvent with e | u
            · rw [execute_unloadErr w e hb hm hl hd hu] at h
              exact absurd h (by simp)
            · cases u
              obtain ⟨n, hn, ht⟩ := drainLoop_not_stuck_blocks w.rounds
                (by rw [hd]; simp)
              refine ⟨n, hn, ?_⟩
              rw [execute_success w hb hm hl hd hu]
              simp [ht]
        · rw [execute_buFailed w e hb hm hl hd] at h
          exact absurd h (by simp)
        · rw [execute_stuck w hb hm hl hd] at h
          exact absurd h (by simp)

theorem successful_trace_shape_witness :
    ∃ n, 1 ≤ n ∧ (execute envSuccess).trace
      = bootTrace envSuccess ++ [Ev.mainModule, Ev.loadSignal] ++ pumpBuBlocks n
          ++ [Ev.unloadSignal] :=
  successful_trace_shape envSuccess rfl

/-- C6 (confirmed): when loading fails before the load signal — the compat
bootstrap side module fails to load, or the root module itself fails — the
error propagates to the caller, `pending_unload` was never set, and no
lifecycle signal (load, before-unload or unload) is dispatched, including
by the finalizer. -/
theorem load_failure_no_signals (w : WorkerEnv ε) (e : ε)
    (h : (w.compat = true ∧ w.sideModule = Except.error e) ∨
         (bootResult w = Except.ok () ∧ w.mainModule = Except.error e)) :
    (execute w).result = some (Except.error e) ∧ (execute w).pending = false ∧
      (completedTrace w).count Ev.loadSignal = 0 ∧
      (completedTrace w).count Ev.beforeUnload = 0 ∧
      (completedTrace w).count Ev.unloadSignal = 0 := by
  rcases h with ⟨hc, hs⟩ | ⟨hb, hm⟩
  · have hb : bootResult w = Except.error e := by
      unfold bootResult
      rw [hc, if_pos rfl, hs]
    have he := execute_bootErr w e hb
    refine ⟨by rw [he], by rw [he], ?_, ?_, ?_⟩ <;>
      · unfold completedTrace
        rw [he]
        simp [List.count_append, count_bootTrace, dropExecutor]
  · have he := execute_mainErr w e hb hm
    refine ⟨by rw [he], by rw [he], ?_, ?_, ?_⟩ <;>
      · unfold completedTrace
        rw [he]
        simp [List.count_append, count_bootTrace, dropExecutor,
          List.count_cons]

theorem load_failure_no_signals_witness :
    (execute envBootFail).result = some (Except.error 9) ∧
      (execute envBootFail).pending = false ∧
      (completedTrace envBootFail).count Ev.loadSignal = 0 ∧
      (completedTrace envBootFail).count Ev.beforeUnload = 0 ∧
      (completedTrace envBootFail).count Ev.unloadSignal = 0 :=
  load_failure_no_signals envBootFail 9 (Or.inl ⟨rfl, rfl⟩)

/-- C7 (counterexample): a successful resolution all of whose graph
specifiers lack a local file path (for example a remote root), with no
configured import map, yields an empty watch set — contradicting the claim
that every resolution attempt carries a non-empty watch set. -/
theorem bundle_resolver_empty_success_watchset :
    (bundle_resolver rRemoteOnly).outcome = Except.ok () ∧
      (bundle_resolver rRemoteOnly).paths_to_watch = [] :=
  ⟨rfl, rfl⟩

/-- C7 (amended): every failing resolution attempt carries a non-empty
watch set consisting of exactly the root source file; a successful attempt
carries the local file paths of the resolved specifiers plus the import map
path when one is configured — a set that may be empty when no resolved
specifier is a local file and no import map is configured. -/
theorem bundle_resolver_paths {π : Type} (r : ResolveEnv π ε) :
    (∀ e, r.graphOutcome = Except.error e →
        (bundle_resolver r).paths_to_watch = [r.sourceFile] ∧
          (bundle_resolver r).paths_to_watch ≠ [] ∧
          (bundle_resolver r).outcome = Except.error e) ∧
      ∀ sp, r.graphOutcome = Except.ok sp →
        (bundle_resolver r).paths_to_watch
            = sp.filterMap id ++ r.importMapPath.toList ∧
          (bundle_resolver r).outcome = Except.ok () := by
  constructor
  · intro e he
    unfold bundle_resolver
    rw [he]
    exact ⟨rfl, by simp, rfl⟩
  · intro sp hsp
    unfold bundle_resolver
    rw [hsp]
    exact ⟨rfl, rfl⟩

theorem bundle_resolver_paths_witness :
    ((bundle_resolver rFail).paths_to_watch = ["b.ts"] ∧
        (bundle_resolver rFail).paths_to_watch ≠ [] ∧
        (bundle_resolver rFail).outcome = Except.error 3) ∧
      (bundle_resolver rLocal).paths_to_watch = ["a.ts", "im.json"] ∧
        (bundle_resolver rLocal).outcome = Except.ok () :=
  ⟨(bundle_resolver_paths rFail).1 3 rfl,
   (bundle_resolver_paths rLocal).2 [some "a.ts", none] rfl⟩

/-- C8 (counterexample): on a fully successful evaluation whose worker
reports exit code 7, `eval_command` returns 0, not the worker's exit
code — contradicting the claim for the eval entry point. -/
theorem eval_returns_zero_not_exit_code :
    (eval_command envSuccess 7).2 = some (Except.ok 0) ∧
      (eval_command envSuccess 7).2 ≠ some (Except.ok 7) :=
  ⟨rfl, by decide⟩

/-- C8 (amended): for every one-shot execution that completes successfully,
`run_command` and `run_from_stdin` return the Execution Environment's
reported exit code, while `eval_command` returns 0 unconditionally, ignoring
the worker's reported exit code. -/
theorem oneshot_success_return_values (w : WorkerEnv ε) (o : OneShotEnv ε)
    (compat : Bool) (c : Int)
    (hb : bootResult w = Except.ok ()) (hm : w.mainModule = Except.ok ())
    (hl : w.loadEvent = Except.ok ())
    (hdw : (oneShotDrain w.rounds).2 = OneShotLoopExit.done)
    (huw : w.unloadEvent = Except.ok ())
    (hlo : (runLoadPhase compat o).2 = none) (hol : o.loadEvent = Except.ok ())
    (hdo : (oneShotDrain o.rounds).2 = OneShotLoopExit.done)
    (huo : o.unloadEvent = Except.ok ()) :
    (run_from_stdin w c).2 = some (Except.ok c) ∧
      (eval_command w c).2 = some (Except.ok 0) ∧
      (run_command compat o).2 = some (Except.ok o.exitCode) := by
  have h1 : (run_from_stdin w c).2 = some (Except.ok c) := by
    unfold run_from_stdin
    rw [hb, hm, hl, hdw, huw]
  refine ⟨h1, ?_, ?_⟩
  · unfold eval_command
    rw [h1]
  · unfold run_command
    rw [hlo, hol, hdo, huo]

theorem oneshot_success_return_values_witness :
    (run_from_stdin envSuccess 7).2 = some (Except.ok 7) ∧
      (eval_command envSuccess 7).2 = some (Except.ok 0) ∧
      (run_command false oRunSuccess).2 = some (Except.ok oRunSuccess.exitCode) :=
  oneshot_success_return_values envSuccess oRunSuccess false 7
    rfl rfl rfl rfl rfl rfl rfl rfl rfl

/-- C9 (confirmed): `write_to_stdout_ignore_sigpipe` returns `Ok(())` when
the underlying stdout write succeeds and when it fails with a `BrokenPipe`
error; every error of any other kind is returned unchanged. -/
theorem write_to_stdout_ignore_sigpipe_spec (r : Except IoError Unit) :
    (r = Except.ok () → write_to_stdout_ignore_sigpipe r = Except.ok ()) ∧
      (∀ e, r = Except.error e → e.kind = IoErrorKind.brokenPipe →
        write_to_stdout_ignore_sigpipe r = Except.ok ()) ∧
      ∀ e, r = Except.error e → e.kind ≠ IoErrorKind.brokenPipe →
        write_to_stdout_ignore_sigpipe r = Except.error e := by
  refine ⟨?_, ?_, ?_⟩
  · intro h
    subst h
    rfl
  · intro e he hk
    subst he
    obtain ⟨k, m⟩ := e
    have hk2 : k = IoErrorKind.brokenPipe := hk
    subst hk2
    rfl
  · intro e he hk
    subst he
    obtain ⟨k, m⟩ := e
    cases k with
    | brokenPipe => exact absurd rfl hk
    | other c => rfl

theorem write_to_stdout_ignore_sigpipe_spec_witness :
    write_to_stdout_ignore_sigpipe (Except.error ioPipe) = Except.ok () ∧
      write_to_stdout_ignore_sigpipe (Except.error ioOther)
        = Except.error ioOther :=
  ⟨(write_to_stdout_ignore_sigpipe_spec (Except.error ioPipe)).2.1 ioPipe rfl rfl,
   (write_to_stdout_ignore_sigpipe_spec (Except.error ioOther)).2.2 ioOther rfl
     (by decide)⟩

/-- C10 (counterexample): on a round whose pump errors and whose
before-unload would report no veto, `run_from_stdin` surfaces the pump error
at once and its trace ends at the pump — no before-unload is dispatched
after the failing pump — while the watcher's drain loop on the same rounds
does dispatch before-unload after the failing pump.  The one-shot loops are
therefore not identical to the watcher's loop, contradicting the claim. -/
theorem oneshot_pump_error_no_beforeunload_cex :
    run_from_stdin envStdinPumpErr 0
        = ([Ev.mainModule, Ev.loadSignal, Ev.pump], some (Except.error 5)) ∧
      (drainLoop envStdinPumpErr.rounds).1 = [Ev.pump, Ev.beforeUnload] :=
  ⟨rfl, rfl⟩

/-- C10 (amended): in `FileWatcherModuleExecutor::execute`'s drain loop the
before-unload signal is dispatched after the pump even when the pump
returned an error; a vetoing before-unload starts another round and
discards the stored pump error, and a non-vetoing before-unload exits the
loop carrying that error.  In the loops of `run_command`, `run_from_stdin`
and `eval_command`, by contrast, a pump error propagates immediately and no
before-unload is dispatched after it. -/
theorem drain_loop_pump_error_handling (p : Except ε Unit) (b : Except ε Bool)
    (rest : List (Except ε Unit × Except ε Bool)) (e : ε) :
    (drainLoop ((p, b) :: rest)).1.take 2 = [Ev.pump, Ev.beforeUnload] ∧
      drainLoop ((Except.error e, Except.ok true) :: rest)
        = (Ev.pump :: Ev.beforeUnload :: (drainLoop rest).1, (drainLoop rest).2) ∧
      (drainLoop ((Except.error e, Except.ok false) :: rest)).2
        = DrainExit.broke (Except.error e) ∧
      oneShotDrain ((Except.error e, b) :: rest)
        = ([Ev.pump], OneShotLoopExit.pumpFailed e) := by
  refine ⟨?_, rfl, rfl, rfl⟩
  cases b with
  | error eb => rfl
  | ok bb => cases bb <;> rfl

end Clarinet.DenoCli
